import Mathlib

/-!
Verification of the query-criteria builder, default-filter composer,
selection tracker and export validation of `src/nslslSearch.js`.

The JavaScript is DOM-event glue; the functions below are shallow
embeddings of its pure computational content.  DOM fields become record
fields or explicit arguments, jQuery reads become parameters, and the
abort-before-ajax control flow becomes `Option`/sum-typed results or a
`Bool` saying whether the network dispatch is reached.
-/

namespace NslslSearch

/-! ### Query-criteria builder (`addToQueryBox`, src lines 790-843)

State touched by the handler: the advanced-query box `#queryBox`, the
simple-search box `#searchCriteria` (kept in sync on success), and the
visibility of the `#emptySearchTerm` inline error.  The `#searchValue`,
`#searchFromValue`, `#searchToValue` inputs and the selected field of
`#searchOptions` are read per call, so they are arguments. -/

structure QueryBoxState where
  queryBox : String
  searchCriteria : String
  emptySearchTermShown : Bool
deriving DecidableEq

structure AddInput where
  /-- `data-columntype` of the selected option: `"string"` or `"int"`. -/
  fieldType : String
  /-- display text of the selected option. -/
  field : String
  searchValue : String
  fromValue : String
  toValue : String
  /-- `data-operator` of the clicked button (`"AND"`, `"OR"`, `"AND NOT"`). -/
  operator : String
deriving DecidableEq

/-- Clause text built at src lines 814-827: `value[field]` for string
fields; otherwise `from:to[field]` where an empty `from` was replaced by
the number `0` and an empty `to` by `3000` (JS `!from` / `!to` on the
input strings). -/
def renderSearchTerm (inp : AddInput) : String :=
  if inp.fieldType = "string" then
    inp.searchValue ++ "[" ++ inp.field ++ "]"
  else
    (if inp.fromValue = "" then "0" else inp.fromValue) ++ ":" ++
      (if inp.toValue = "" then "3000" else inp.toValue) ++ "[" ++ inp.field ++ "]"

/-- `addToQueryBox` (src lines 790-843).  If `#searchValue` is empty and
both range inputs are empty, it shows the `#emptySearchTerm` error and
returns without touching the query (lines 792-796).  Otherwise it hides
the error, builds the clause, and either sets the empty query box to the
clause alone or wraps the old contents and the clause in parentheses
around the operator (lines 829-835), copying the result into
`#searchCriteria` (line 840).  No network call occurs anywhere in the
function. -/
def addToQueryBox (st : QueryBoxState) (inp : AddInput) : QueryBoxState :=
  if inp.searchValue = "" ∧ inp.fromValue = "" ∧ inp.toValue = "" then
    { st with emptySearchTermShown := true }
  else
    let newSearchTerm := renderSearchTerm inp
    let newQry :=
      if st.queryBox = "" then newSearchTerm
      else "(" ++ st.queryBox ++ ") " ++ inp.operator ++ " (" ++ newSearchTerm ++ ")"
    { queryBox := newQry, searchCriteria := newQry, emptySearchTermShown := false }

/-- The page starts with both query inputs empty and no inline error. -/
def initialQueryBoxState : QueryBoxState := ⟨"", "", false⟩

/-- A sequence of advanced-search "add" clicks. -/
def runAppends (st : QueryBoxState) (inps : List AddInput) : QueryBoxState :=
  inps.foldl addToQueryBox st

/-- The input passes the empty-term validation at src line 792. -/
def AddInput.valid (inp : AddInput) : Prop :=
  ¬(inp.searchValue = "" ∧ inp.fromValue = "" ∧ inp.toValue = "")

instance (inp : AddInput) : Decidable inp.valid := by
  unfold AddInput.valid; infer_instance

/-! ### Parenthesis bookkeeping used by claim C2 -/

/-- Depth scan over a character list: `none` means a `)` closed more than
was open; `some d` is the final depth. -/
def parenScan : List Char → Nat → Option Nat
  | [], d => some d
  | c :: cs, d =>
    if c = '(' then parenScan cs (d + 1)
    else if c = ')' then
      match d with
      | 0 => none
      | Nat.succ d => parenScan cs d
    else parenScan cs d

/-- Balanced parentheses: the scan from depth 0 ends at depth 0. -/
def balanced (s : String) : Prop := parenScan s.data 0 = some 0

instance (s : String) : Decidable (balanced s) := by
  unfold balanced; infer_instance

/-- Number of occurrences of a character in a string. -/
def countChar (c : Char) (s : String) : Nat := s.data.count c

/-- A string containing neither `(` nor `)`. -/
def parenFreeS (s : String) : Prop := '(' ∉ s.data ∧ ')' ∉ s.data

instance (s : String) : Decidable (parenFreeS s) := by
  unfold parenFreeS; infer_instance

/-- All user-controlled pieces of the input are parenthesis-free. -/
def AddInput.parenFree (inp : AddInput) : Prop :=
  parenFreeS inp.searchValue ∧ parenFreeS inp.fromValue ∧ parenFreeS inp.toValue ∧
    parenFreeS inp.field ∧ parenFreeS inp.operator

instance (inp : AddInput) : Decidable inp.parenFree := by
  unfold AddInput.parenFree; infer_instance

/-! ### Helper lemmas on strings and scans -/

lemma parenFreeS_append {a b : String} :
    parenFreeS (a ++ b) ↔ parenFreeS a ∧ parenFreeS b := by
  simp only [parenFreeS, String.data_append, List.mem_append]
  tauto

lemma parenScan_append (a b : List Char) (d : Nat) :
    parenScan (a ++ b) d = (parenScan a d).bind (parenScan b) := by
  induction a generalizing d with
  | nil => simp [parenScan]
  | cons c cs ih =>
    by_cases h1 : c = '('
    · simp [parenScan, h1, ih]
    · by_cases h2 : c = ')'
      · cases d with
        | zero => simp [parenScan, h1, h2]
        | succ d => simp [parenScan, h1, h2, ih]
      · simp [parenScan, h1, h2, ih]

lemma parenScan_of_parenFree {l : List Char} (h1 : '(' ∉ l) (h2 : ')' ∉ l) (d : Nat) :
    parenScan l d = some d := by
  induction l generalizing d with
  | nil => rfl
  | cons c cs ih =>
    simp only [List.mem_cons, not_or] at h1 h2
    have hc1 : c ≠ '(' := fun h => h1.1 h.symm
    have hc2 : c ≠ ')' := fun h => h2.1 h.symm
    simp [parenScan, hc1, hc2, ih h1.2 h2.2]

lemma parenScan_of_parenFreeS {s : String} (h : parenFreeS s) (d : Nat) :
    parenScan s.data d = some d :=
  parenScan_of_parenFree h.1 h.2 d

lemma parenScan_shift {l : List Char} {d m : Nat} (h : parenScan l d = some m) (k : Nat) :
    parenScan l (d + k) = some (m + k) := by
  induction l generalizing d m with
  | nil =>
    simp only [parenScan, Option.some.injEq] at h
    simp [parenScan, h]
  | cons c cs ih =>
    by_cases h1 : c = '('
    · simp only [parenScan, h1, if_pos rfl] at h ⊢
      have := ih h
      simpa [Nat.add_right_comm] using this
    · by_cases h2 : c = ')'
      · cases d with
        | zero => simp [parenScan, h1, h2] at h
        | succ d =>
          simp only [parenScan, h1, h2, if_neg, if_pos rfl] at h
          have := ih h
          simp only [parenScan, h1, h2]
          simpa [Nat.succ_add] using this
      · simp only [parenScan, h1, h2, if_neg] at h ⊢
        exact ih h

/-- The rendered clause is never the empty string (it ends in `]`). -/
lemma renderSearchTerm_ne_empty (inp : AddInput) : renderSearchTerm inp ≠ "" := by
  unfold renderSearchTerm
  split <;>
  · intro h
    have := congrArg String.data h
    simp [String.data_append] at this

/-- The rendered clause contains no parentheses when the input does not. -/
lemma renderSearchTerm_parenFree {inp : AddInput} (h : inp.parenFree) :
    parenFreeS (renderSearchTerm inp) := by
  obtain ⟨hv, hf, ht, hfield, -⟩ := h
  unfold renderSearchTerm
  split
  · exact parenFreeS_append.mpr
      ⟨parenFreeS_append.mpr ⟨parenFreeS_append.mpr ⟨hv, by decide⟩, hfield⟩, by decide⟩
  · refine parenFreeS_append.mpr ⟨parenFreeS_append.mpr ⟨parenFreeS_append.mpr
      ⟨parenFreeS_append.mpr ⟨parenFreeS_append.mpr ⟨?_, by decide⟩, ?_⟩, by decide⟩,
        hfield⟩, by decide⟩
    · split
      · decide
      · exact hf
    · split
      · decide
      · exact ht

lemma addToQueryBox_queryBox_of_valid {st : QueryBoxState} {inp : AddInput}
    (h : inp.valid) :
    (addToQueryBox st inp).queryBox =
      if st.queryBox = "" then renderSearchTerm inp
      else "(" ++ st.queryBox ++ ") " ++ inp.operator ++ " (" ++ renderSearchTerm inp ++ ")" := by
  have h' : ¬(inp.searchValue = "" ∧ inp.fromValue = "" ∧ inp.toValue = "") := h
  unfold addToQueryBox
  rw [if_neg h']

lemma addToQueryBox_of_invalid {st : QueryBoxState} {inp : AddInput}
    (hv : inp.searchValue = "") (hf : inp.fromValue = "") (ht : inp.toValue = "") :
    addToQueryBox st inp = { st with emptySearchTermShown := true } := by
  unfold addToQueryBox
  rw [if_pos ⟨hv, hf, ht⟩]

lemma countChar_append (ch : Char) (a b : String) :
    countChar ch (a ++ b) = countChar ch a + countChar ch b := by
  simp [countChar, String.data_append]

lemma countChar_eq_zero_of_not_mem {ch : Char} {s : String} (h : ch ∉ s.data) :
    countChar ch s = 0 := by
  simp [countChar, List.count_eq_zero, h]

/-- Wrapping balanced content and a parenthesis-free clause around an
operator, as line 834 does, keeps the string balanced. -/
lemma balanced_wrap {a op c : String} (ha : balanced a) (hop : parenFreeS op)
    (hc : parenFreeS c) :
    balanced ("(" ++ a ++ ") " ++ op ++ " (" ++ c ++ ")") := by
  have d1 : ("(" ++ a ++ ") " ++ op ++ " (" ++ c ++ ")").data
      = ((((("(".data ++ a.data) ++ ") ".data) ++ op.data) ++ " (".data) ++ c.data)
          ++ ")".data := by
    simp [String.data_append]
  have ha1 : parenScan a.data 1 = some 1 := by simpa using parenScan_shift ha 1
  have hop0 : parenScan op.data 0 = some 0 := parenScan_of_parenFreeS hop 0
  have hc1 : parenScan c.data 1 = some 1 := parenScan_of_parenFreeS hc 1
  have e1 : parenScan "(".data 0 = some 1 := rfl
  have e2 : parenScan ") ".data 1 = some 0 := rfl
  have e3 : parenScan " (".data 0 = some 1 := rfl
  have e4 : parenScan ")".data 1 = some 0 := rfl
  unfold balanced
  rw [d1]
  simp only [parenScan_append, Option.some_bind, e1, ha1, e2, hop0, e3, hc1, e4]

/-- Each wrap adds exactly two characters of each parenthesis kind. -/
lemma countChar_wrap {op c : String} (hop : parenFreeS op) (hc : parenFreeS c)
    (a : String) :
    countChar '(' ("(" ++ a ++ ") " ++ op ++ " (" ++ c ++ ")") = countChar '(' a + 2 ∧
    countChar ')' ("(" ++ a ++ ") " ++ op ++ " (" ++ c ++ ")") = countChar ')' a + 2 := by
  have z1 := countChar_eq_zero_of_not_mem hop.1
  have z2 := countChar_eq_zero_of_not_mem hop.2
  have z3 := countChar_eq_zero_of_not_mem hc.1
  have z4 := countChar_eq_zero_of_not_mem hc.2
  have l1 : countChar '(' "(" = 1 := rfl
  have l2 : countChar '(' ") " = 0 := rfl
  have l3 : countChar '(' " (" = 1 := rfl
  have l4 : countChar '(' ")" = 0 := rfl
  have r1 : countChar ')' "(" = 0 := rfl
  have r2 : countChar ')' ") " = 1 := rfl
  have r3 : countChar ')' " (" = 0 := rfl
  have r4 : countChar ')' ")" = 1 := rfl
  constructor
  · simp only [countChar_append, z1, z3, l1, l2, l3, l4]
    omega
  · simp only [countChar_append, z2, z4, r1, r2, r3, r4]
    omega

/-- Invariant of a run of successful, parenthesis-free appends starting
from a nonempty balanced query: the query stays nonempty and balanced and
gains exactly two parentheses of each kind per append. -/
lemma runAppends_invariant (inps : List AddInput) :
    ∀ st : QueryBoxState, st.queryBox ≠ "" → balanced st.queryBox →
      (∀ inp ∈ inps, inp.valid ∧ inp.parenFree) →
      (runAppends st inps).queryBox ≠ "" ∧ balanced (runAppends st inps).queryBox ∧
        countChar '(' (runAppends st inps).queryBox
          = countChar '(' st.queryBox + 2 * inps.length ∧
        countChar ')' (runAppends st inps).queryBox
          = countChar ')' st.queryBox + 2 * inps.length := by
  induction inps with
  | nil =>
    intro st h1 h2 _
    exact ⟨h1, h2, by simp [runAppends], by simp [runAppends]⟩
  | cons inp rest ih =>
    intro st h1 h2 hall
    have hv := (hall inp (List.mem_cons_self inp rest)).1
    have hpf := (hall inp (List.mem_cons_self inp rest)).2
    have hstep : (addToQueryBox st inp).queryBox
        = "(" ++ st.queryBox ++ ") " ++ inp.operator ++ " (" ++ renderSearchTerm inp ++ ")" := by
      rw [addToQueryBox_queryBox_of_valid hv, if_neg h1]
    have hne : (addToQueryBox st inp).queryBox ≠ "" := by
      rw [hstep]
      intro h
      have := congrArg String.data h
      simp [String.data_append] at this
    have hbal : balanced (addToQueryBox st inp).queryBox := by
      rw [hstep]
      exact balanced_wrap h2 hpf.2.2.2.2 (renderSearchTerm_parenFree hpf)
    have hcw := countChar_wrap hpf.2.2.2.2 (renderSearchTerm_parenFree hpf) st.queryBox
    have hrun : runAppends st (inp :: rest) = runAppends (addToQueryBox st inp) rest := rfl
    obtain ⟨q1, q2, q3, q4⟩ := ih (addToQueryBox st inp) hne hbal
      (fun i hi => hall i (List.mem_cons_of_mem _ hi))
    refine ⟨hrun ▸ q1, hrun ▸ q2, ?_, ?_⟩
    · rw [hrun, q3, hstep, hcw.1]
      simp [Nat.mul_add, Nat.mul_succ]
      omega
    · rw [hrun, q4, hstep, hcw.2]
      simp [Nat.mul_add, Nat.mul_succ]
      omega

/-- C1: an append with nonempty current criteria yields
`(current) operator (clause)`; with empty current it yields the clause
alone, the operator unused.  In particular
`append("x[fieldA]", fieldB, "y", "OR") = "(x[fieldA]) OR (y[fieldB])"`
and `append("", fieldA, "x", "AND") = "x[fieldA]"`. -/
theorem C1_append_rendering :
    (∀ (st : QueryBoxState) (inp : AddInput), inp.valid →
        (addToQueryBox st inp).queryBox =
          if st.queryBox = "" then renderSearchTerm inp
          else "(" ++ st.queryBox ++ ") " ++ inp.operator ++ " ("
            ++ renderSearchTerm inp ++ ")") ∧
    (addToQueryBox ⟨"x[fieldA]", "x[fieldA]", false⟩
        ⟨"string", "fieldB", "y", "", "", "OR"⟩).queryBox = "(x[fieldA]) OR (y[fieldB])" ∧
    (addToQueryBox ⟨"", "", false⟩
        ⟨"string", "fieldA", "x", "", "", "AND"⟩).queryBox = "x[fieldA]" :=
  ⟨fun _ _ hv => addToQueryBox_queryBox_of_valid hv, rfl, rfl⟩

/-- Witness for C1 at a concrete nonempty state and input. -/
theorem C1_append_rendering_witness :
    (addToQueryBox ⟨"a[Title]", "a[Title]", false⟩
        ⟨"string", "Author", "b", "", "", "AND"⟩).queryBox = "(a[Title]) AND (b[Author])" := by
  have h := C1_append_rendering.1 ⟨"a[Title]", "a[Title]", false⟩
    ⟨"string", "Author", "b", "", "", "AND"⟩ (by decide)
  rw [h]
  decide

/-- C2 fails as stated: a successful append whose value contains a `)`
produces an unbalanced query, and two clean appends produce a query with
two parenthesized groups although the claim predicts
`(2 - 1) - 1 = 0` of them. -/
theorem C2_balanced_groups_counterexample :
    (⟨"string", "fieldA", ")x", "", "", "AND"⟩ : AddInput).valid ∧
    ¬ balanced (runAppends initialQueryBoxState
        [⟨"string", "fieldA", ")x", "", "", "AND"⟩]).queryBox ∧
    (⟨"string", "fieldA", "x", "", "", "AND"⟩ : AddInput).valid ∧
    (⟨"string", "fieldB", "y", "", "", "OR"⟩ : AddInput).valid ∧
    countChar '(' (runAppends initialQueryBoxState
        [⟨"string", "fieldA", "x", "", "", "AND"⟩,
         ⟨"string", "fieldB", "y", "", "", "OR"⟩]).queryBox = 2 ∧
    countChar ')' (runAppends initialQueryBoxState
        [⟨"string", "fieldA", "x", "", "", "AND"⟩,
         ⟨"string", "fieldB", "y", "", "", "OR"⟩]).queryBox = 2 ∧
    ((2 : Nat) - 1) - 1 = 0 := by
  decide

/-- C2 (amended): for every nonempty sequence of successful appends whose
inputs contain no parenthesis characters, the resulting criteria string
has balanced parentheses, contains exactly twice as many parenthesized
groups (`(` and `)` each) as there are appends beyond the first, and the
first clause added from an empty query is never parenthesized on its
own. -/
theorem C2_balanced_groups_amended :
    ∀ inps : List AddInput, inps ≠ [] →
      (∀ inp ∈ inps, inp.valid ∧ inp.parenFree) →
      balanced (runAppends initialQueryBoxState inps).queryBox ∧
      countChar '(' (runAppends initialQueryBoxState inps).queryBox
        = 2 * (inps.length - 1) ∧
      countChar ')' (runAppends initialQueryBoxState inps).queryBox
        = 2 * (inps.length - 1) ∧
      (∀ inp : AddInput, inp.valid → inp.parenFree →
        (addToQueryBox initialQueryBoxState inp).queryBox = renderSearchTerm inp ∧
        countChar '(' (addToQueryBox initialQueryBoxState inp).queryBox = 0 ∧
        countChar ')' (addToQueryBox initialQueryBoxState inp).queryBox = 0) := by
  have hfirst : ∀ inp : AddInput, inp.valid → inp.parenFree →
      (addToQueryBox initialQueryBoxState inp).queryBox = renderSearchTerm inp ∧
      countChar '(' (addToQueryBox initialQueryBoxState inp).queryBox = 0 ∧
      countChar ')' (addToQueryBox initialQueryBoxState inp).queryBox = 0 := by
    intro inp hv hpf
    have h : (addToQueryBox initialQueryBoxState inp).queryBox = renderSearchTerm inp := by
      rw [addToQueryBox_queryBox_of_valid hv]
      rfl
    refine ⟨h, ?_, ?_⟩
    · rw [h]
      exact countChar_eq_zero_of_not_mem (renderSearchTerm_parenFree hpf).1
    · rw [h]
      exact countChar_eq_zero_of_not_mem (renderSearchTerm_parenFree hpf).2
  intro inps hne hall
  cases inps with
  | nil => exact absurd rfl hne
  | cons inp0 rest =>
    have hv0 := (hall inp0 (List.mem_cons_self inp0 rest)).1
    have hpf0 := (hall inp0 (List.mem_cons_self inp0 rest)).2
    obtain ⟨h0, hc0l, hc0r⟩ := hfirst inp0 hv0 hpf0
    have hne0 : (addToQueryBox initialQueryBoxState inp0).queryBox ≠ "" := by
      rw [h0]
      exact renderSearchTerm_ne_empty inp0
    have hbal0 : balanced (addToQueryBox initialQueryBoxState inp0).queryBox := by
      rw [h0]
      exact parenScan_of_parenFreeS (renderSearchTerm_parenFree hpf0) 0
    have hrun : runAppends initialQueryBoxState (inp0 :: rest)
        = runAppends (addToQueryBox initialQueryBoxState inp0) rest := rfl
    obtain ⟨-, q2, q3, q4⟩ := runAppends_invariant rest
      (addToQueryBox initialQueryBoxState inp0) hne0 hbal0
      (fun i hi => hall i (List.mem_cons_of_mem _ hi))
    refine ⟨hrun ▸ q2, ?_, ?_, hfirst⟩
    · rw [hrun, q3, hc0l]
      simp
    · rw [hrun, q4, hc0r]
      simp

/-- Witness for the amended C2 on two concrete clean appends. -/
theorem C2_balanced_groups_amended_witness :
    balanced (runAppends initialQueryBoxState
        [⟨"string", "Title", "mars", "", "", "AND"⟩,
         ⟨"string", "Author", "smith", "", "", "OR"⟩]).queryBox ∧
    countChar '(' (runAppends initialQueryBoxState
        [⟨"string", "Title", "mars", "", "", "AND"⟩,
         ⟨"string", "Author", "smith", "", "", "OR"⟩]).queryBox = 2 ∧
    countChar ')' (runAppends initialQueryBoxState
        [⟨"string", "Title", "mars", "", "", "AND"⟩,
         ⟨"string", "Author", "smith", "", "", "OR"⟩]).queryBox = 2 := by
  have h := C2_balanced_groups_amended
    [⟨"string", "Title", "mars", "", "", "AND"⟩,
     ⟨"string", "Author", "smith", "", "", "OR"⟩]
    (by simp) (by decide)
  exact ⟨h.1, by simpa using h.2.1, by simpa using h.2.2.1⟩

/-- C6: for a range-kind (non-`"string"`) field, an empty `from` renders
as `0` and an empty `to` renders as `3000`; with both omitted the clause
is `0:3000[field]`. -/
theorem C6_range_defaults :
    (∀ inp : AddInput, inp.fieldType ≠ "string" →
        renderSearchTerm inp =
          (if inp.fromValue = "" then "0" else inp.fromValue) ++ ":" ++
            (if inp.toValue = "" then "3000" else inp.toValue) ++ "[" ++ inp.field ++ "]") ∧
    (∀ inp : AddInput, inp.fieldType ≠ "string" → inp.fromValue = "" → inp.toValue = "" →
        renderSearchTerm inp = "0:3000[" ++ inp.field ++ "]") := by
  constructor
  · intro inp h
    simp [renderSearchTerm, h]
  · intro inp h hf ht
    simp only [renderSearchTerm, if_neg h, hf, ht]
    rfl

/-- Witness for C6 on a concrete range field with both bounds omitted. -/
theorem C6_range_defaults_witness :
    renderSearchTerm ⟨"int", "Pub Year", "x", "", "", "AND"⟩ = "0:3000[Pub Year]" := by
  have h := C6_range_defaults.2 ⟨"int", "Pub Year", "x", "", "", "AND"⟩ (by decide) rfl rfl
  rw [h]
  decide

/-- C7: a string-kind append with empty text value and no range bounds
shows the inline `#emptySearchTerm` error and aborts, leaving both
criteria strings unchanged; `addToQueryBox` is a total function and makes
no network call. -/
theorem C7_empty_string_term_aborts :
    ∀ (st : QueryBoxState) (inp : AddInput), inp.fieldType = "string" →
      inp.searchValue = "" → inp.fromValue = "" → inp.toValue = "" →
      (addToQueryBox st inp).queryBox = st.queryBox ∧
      (addToQueryBox st inp).searchCriteria = st.searchCriteria ∧
      (addToQueryBox st inp).emptySearchTermShown = true := by
  intro st inp _ hv hf ht
  rw [addToQueryBox_of_invalid hv hf ht]
  exact ⟨rfl, rfl, rfl⟩

/-- Witness for C7 at a concrete state and empty input. -/
theorem C7_empty_string_term_aborts_witness :
    (addToQueryBox ⟨"q[F]", "q[F]", false⟩ ⟨"string", "Title", "", "", "", "AND"⟩).queryBox
        = "q[F]" ∧
    (addToQueryBox ⟨"q[F]", "q[F]", false⟩ ⟨"string", "Title", "", "", "", "AND"⟩).searchCriteria
        = "q[F]" ∧
    (addToQueryBox ⟨"q[F]", "q[F]", false⟩
        ⟨"string", "Title", "", "", "", "AND"⟩).emptySearchTermShown = true :=
  C7_empty_string_term_aborts ⟨"q[F]", "q[F]", false⟩
    ⟨"string", "Title", "", "", "", "AND"⟩ rfl rfl rfl rfl

/-! ### Default-filter criteria composer (`buildDefaultFilterCriteria`,
src lines 662-706) and the `.defaultFilter` click handler (src 359-403) -/

/-- A jQuery `data(...)` value: the page stores numbers (year offsets)
and strings (field names and filter values).  JS `-` coerces a numeric
string to its number and string concatenation renders numbers in
decimal.  Non-numeric strings (JS `NaN`) are outside the model. -/
inductive DataVal where
  | num (n : Int)
  | str (s : String)
deriving DecidableEq

/-- Decimal value of a digit string, the computational core of JS
`Number()` on the nonnegative integer inputs this page deals in. -/
def digitsToNat : List Char → Nat → Nat
  | [], acc => acc
  | c :: cs, acc => digitsToNat cs (acc * 10 + (c.toNat - 48))

def DataVal.toNumber : DataVal → Int
  | .num n => n
  | .str s => Int.ofNat (digitsToNat s.data 0)

def DataVal.render : DataVal → String
  | .num n => toString n
  | .str s => s

/-- One `.defaultFilter` checkbox: checked state, `data-filterfield` and
`data-filtervalue`.  (`data-filtertype` is read into `fldType` at src
line 672 but never used, so it is not modelled.) -/
structure DefaultFilter where
  checked : Bool
  filterfield : String
  filtervalue : DataVal
deriving DecidableEq

/-- Fragment a checked filter appends to the criteria (the `switch` on
`data-filterfield` at src lines 674-687); every fragment starts with a
space. -/
def filterFragment (currentYear : Int) (fldName : String) (v : DataVal) : String :=
  if fldName = "year" then
    " BETWEEN (" ++ toString (currentYear - v.toNumber) ++ ":3001" ++ "[Pub Year])"
  else if fldName = "notempty" then
    " NOTEMPTY ([" ++ v.render ++ "])"
  else
    " CONTAINS (" ++ v.render ++ "[" ++ fldName ++ "])"

/-- The `.each` loop over `.defaultFilter` checkboxes (src 669-689). -/
def composeFilters (currentYear : Int) (filters : List DefaultFilter) : String :=
  filters.foldl
    (fun acc f =>
      if f.checked then acc ++ filterFragment currentYear f.filterfield f.filtervalue
      else acc)
    ""

/-- `buildDefaultFilterCriteria` (src 662-706): the loop above, then the
custom `#fromPubYear` / `#toPubYear` range appended when `#customRange`
is checked and at least one bound is supplied; an empty `from` becomes
`1001`, otherwise an empty `to` becomes `3000` (the if/else-if at src
696-700). -/
def buildDefaultFilterCriteria (currentYear : Int) (filters : List DefaultFilter)
    (fromPubYear toPubYear : String) (customRangeChecked : Bool) : String :=
  let defaultFilterCriteria := composeFilters currentYear filters
  if (fromPubYear ≠ "" ∨ toPubYear ≠ "") ∧ customRangeChecked = true then
    let p :=
      if fromPubYear = "" then ("1001", toPubYear)
      else if toPubYear = "" then (fromPubYear, "3000")
      else (fromPubYear, toPubYear)
    defaultFilterCriteria ++ " BETWEEN (" ++ p.1 ++ ":" ++ p.2 ++ "[Pub Year])"
  else defaultFilterCriteria

/-- JS `Number()` on a year input field: the empty string is `0` (as in
JS) and a nonnegative decimal integer string is its value.  Signed or
non-numeric strings (JS `NaN`) are outside the model. -/
def jsNumber (s : String) : Int := Int.ofNat (digitsToNat s.data 0)

/-- Outcome of the `.defaultFilter` click handler: a `toastr.error`
validation message, or the composed criteria handed to the search
request. -/
inductive FilterResult where
  | error (msg : String)
  | composed (criteria : String)
deriving DecidableEq

def FilterResult.isError : FilterResult → Bool
  | .error _ => true
  | .composed _ => false

/-- The `.defaultFilter` click handler (src 359-403): coerce both bounds
with `Number()`, reject `from > to` (src 363), then reject any positive
bound whose decimal rendering is not 4 characters long (src 366); only
then run `buildDefaultFilterCriteria` (src 377) and the ajax search. -/
def defaultFilterClick (currentYear : Int) (filters : List DefaultFilter)
    (fromPubYear toPubYear : String) (customRangeChecked : Bool) : FilterResult :=
  let fromYear := jsNumber fromPubYear
  let toYear := jsNumber toPubYear
  if fromYear > toYear then
    .error "From year must be less than to year"
  else if (fromYear > 0 ∧ (toString fromYear).length ≠ 4) ∨
      (toYear > 0 ∧ (toString toYear).length ≠ 4) then
    .error "Custom year range values must be 4 digits"
  else
    .composed
      (buildDefaultFilterCriteria currentYear filters fromPubYear toPubYear customRangeChecked)

/-- Fragment text as the spec phrases it, without the leading space
separator. -/
def fragBody (currentYear : Int) (fldName : String) (v : DataVal) : String :=
  if fldName = "year" then
    "BETWEEN (" ++ toString (currentYear - v.toNumber) ++ ":3001" ++ "[Pub Year])"
  else if fldName = "notempty" then
    "NOTEMPTY ([" ++ v.render ++ "])"
  else
    "CONTAINS (" ++ v.render ++ "[" ++ fldName ++ "])"

/-- Plain concatenation of a list of strings. -/
def joinStrings : List String → String
  | [] => ""
  | s :: rest => s ++ joinStrings rest

lemma filterFragment_eq_space_fragBody (y : Int) (fldName : String) (v : DataVal) :
    filterFragment y fldName v = " " ++ fragBody y fldName v := by
  unfold filterFragment fragBody
  split_ifs <;> (simp only [← String.append_assoc]; rfl)

lemma composeFilters_foldl (y : Int) (filters : List DefaultFilter) :
    ∀ acc : String,
      filters.foldl
          (fun acc f =>
            if f.checked then acc ++ filterFragment y f.filterfield f.filtervalue else acc)
          acc
        = acc ++ joinStrings ((filters.filter (fun f => f.checked)).map
            (fun f => filterFragment y f.filterfield f.filtervalue)) := by
  induction filters with
  | nil => intro acc; simp [joinStrings, String.append_empty]
  | cons f fs ih =>
    intro acc
    by_cases hc : f.checked = true
    · simp [hc, ih, joinStrings, String.append_assoc]
    · simp [hc, ih]

lemma composeFilters_eq_join (y : Int) (filters : List DefaultFilter) :
    composeFilters y filters
      = joinStrings ((filters.filter (fun f => f.checked)).map
          (fun f => " " ++ fragBody y f.filterfield f.filtervalue)) := by
  unfold composeFilters
  rw [composeFilters_foldl]
  simp only [filterFragment_eq_space_fragBody, String.empty_append]

/-- C4: each checked default filter contributes, by its
`data-filterfield` kind, `BETWEEN (currentYear - N:3001[Pub Year])` with
the fixed upper bound 3001 for `year`, `NOTEMPTY ([value])` for
`notempty`, and `CONTAINS (value[field])` otherwise; the selected
fragments are concatenated in iteration order, each separated by a single
space with no parenthesization between them. -/
theorem C4_default_filter_fragments :
    (∀ (y : Int) (filters : List DefaultFilter),
        composeFilters y filters
          = joinStrings ((filters.filter (fun f => f.checked)).map
              (fun f => " " ++ fragBody y f.filterfield f.filtervalue))) ∧
    (∀ (y n : Int), fragBody y "year" (DataVal.num n)
        = "BETWEEN (" ++ toString (y - n) ++ ":3001" ++ "[Pub Year])") ∧
    (∀ (y : Int) (v : String), fragBody y "notempty" (DataVal.str v)
        = "NOTEMPTY ([" ++ v ++ "])") ∧
    (∀ (y : Int) (fld v : String), fld ≠ "year" → fld ≠ "notempty" →
        fragBody y fld (DataVal.str v) = "CONTAINS (" ++ v ++ "[" ++ fld ++ "])") := by
  refine ⟨composeFilters_eq_join, fun y n => rfl, fun y v => rfl, fun y fld v h1 h2 => ?_⟩
  simp [fragBody, h1, h2, DataVal.render]

/-- Witness for C4 on a concrete filter list covering all three kinds. -/
theorem C4_default_filter_fragments_witness :
    composeFilters 2025
        [⟨true, "year", DataVal.num 5⟩, ⟨false, "authors", DataVal.str "x"⟩,
         ⟨true, "notempty", DataVal.str "Abstract"⟩, ⟨true, "authors", DataVal.str "smith"⟩]
      = " BETWEEN (2020:3001[Pub Year]) NOTEMPTY ([Abstract]) CONTAINS (smith[authors])" ∧
    fragBody 2025 "authors" (DataVal.str "smith") = "CONTAINS (" ++ "smith" ++ "[" ++ "authors" ++ "])" := by
  constructor
  · rw [C4_default_filter_fragments.1 2025]
    decide
  · exact C4_default_filter_fragments.2.2.2 2025 "authors" "smith" (by decide) (by decide)

/-- C5 fails as stated: the supplied bound `"0"` has digit count 1, not
4, yet the handler composes instead of failing, because the source only
applies the 4-digit check to bounds coerced to a positive number. -/
theorem C5_custom_range_counterexample :
    defaultFilterClick 2025 [] "0" "" true
        = FilterResult.composed " BETWEEN (0:3000[Pub Year])" ∧
    "0".length ≠ 4 := by decide

/-- C5 (amended): the custom-range path fails with a validation error
whenever the coerced `from` exceeds the coerced `to`, or whenever a
supplied bound is positive and its decimal rendering is not 4 digits
(the code skips the digit-count check for bounds that coerce to 0 or
less); `{from: 1999, to: 1998}` fails; when the range is enabled, at
least one bound is supplied and validation passes, the composer appends
`BETWEEN (from:to[Pub Year])` with `1001` substituted for a missing
`from` and `3000` for a missing `to`. -/
theorem C5_custom_range_amended :
    (∀ (y : Int) (fs : List DefaultFilter) (fromS toS : String) (ck : Bool),
        jsNumber fromS > jsNumber toS →
        defaultFilterClick y fs fromS toS ck
          = FilterResult.error "From year must be less than to year") ∧
    (∀ (y : Int) (fs : List DefaultFilter) (fromS toS : String) (ck : Bool),
        ((jsNumber fromS > 0 ∧ (toString (jsNumber fromS)).length ≠ 4) ∨
          (jsNumber toS > 0 ∧ (toString (jsNumber toS)).length ≠ 4)) →
        (defaultFilterClick y fs fromS toS ck).isError = true) ∧
    (∀ (y : Int) (fs : List DefaultFilter) (ck : Bool),
        defaultFilterClick y fs "1999" "1998" ck
          = FilterResult.error "From year must be less than to year") ∧
    (∀ (y : Int) (fs : List DefaultFilter) (fromS toS : String),
        ¬ jsNumber fromS > jsNumber toS →
        ¬((jsNumber fromS > 0 ∧ (toString (jsNumber fromS)).length ≠ 4) ∨
          (jsNumber toS > 0 ∧ (toString (jsNumber toS)).length ≠ 4)) →
        (fromS ≠ "" ∨ toS ≠ "") →
        defaultFilterClick y fs fromS toS true
          = FilterResult.composed (composeFilters y fs ++ " BETWEEN ("
              ++ (if fromS = "" then "1001" else fromS) ++ ":"
              ++ (if toS = "" then "3000" else toS) ++ "[Pub Year])")) := by
  refine ⟨fun y fs fromS toS ck h => ?_, fun y fs fromS toS ck h => ?_,
    fun y fs ck => ?_, fun y fs fromS toS h1 h2 h3 => ?_⟩
  · simp only [defaultFilterClick]
    rw [if_pos h]
  · simp only [defaultFilterClick]
    by_cases h1 : jsNumber fromS > jsNumber toS
    · rw [if_pos h1]
      rfl
    · rw [if_neg h1, if_pos h]
      rfl
  · simp only [defaultFilterClick]
    rw [if_pos (by decide : jsNumber "1999" > jsNumber "1998")]
  · simp only [defaultFilterClick]
    rw [if_neg h1, if_neg h2]
    unfold buildDefaultFilterCriteria
    rw [if_pos ⟨h3, rfl⟩]
    by_cases hf : fromS = ""
    · have ht : toS ≠ "" := h3.resolve_left (by simp [hf])
      simp [hf, ht]
    · by_cases hto : toS = ""
      · simp [hf, hto]
      · simp [hf, hto]

/-- Witness for the amended C5 on all four conjuncts. -/
theorem C5_custom_range_amended_witness :
    defaultFilterClick 2025 [] "2000" "1999" true
        = FilterResult.error "From year must be less than to year" ∧
    (defaultFilterClick 2025 [] "850" "" true).isError = true ∧
    defaultFilterClick 2025 [] "1999" "1998" false
        = FilterResult.error "From year must be less than to year" ∧
    defaultFilterClick 2025 [⟨true, "notempty", DataVal.str "Abstract"⟩] "" "1998" true
        = FilterResult.composed " NOTEMPTY ([Abstract]) BETWEEN (1001:1998[Pub Year])" := by
  refine ⟨C5_custom_range_amended.1 2025 [] "2000" "1999" true (by decide),
    C5_custom_range_amended.2.1 2025 [] "850" "" true (by decide),
    C5_custom_range_amended.2.2.1 2025 [] false, ?_⟩
  rw [C5_custom_range_amended.2.2.2 2025 [⟨true, "notempty", DataVal.str "Abstract"⟩]
    "" "1998" (by decide) (by decide) (by decide)]
  decide

/-- C10: `Number('')` is `0`, so a `from` bound that coerces to a
positive number together with an empty `to` bound always trips the
`from > to` check: the handler reports the year-inversion error before
composition runs, and the `3000` substitution for a missing `to` is
unreachable through this handler for any positive `from`. -/
theorem C10_empty_to_coerces_to_zero :
    jsNumber "" = 0 ∧
    (∀ (y : Int) (fs : List DefaultFilter) (fromS : String) (ck : Bool),
        jsNumber fromS > 0 →
        defaultFilterClick y fs fromS "" ck
          = FilterResult.error "From year must be less than to year") := by
  refine ⟨rfl, fun y fs fromS ck h => ?_⟩
  have h0 : jsNumber "" = 0 := rfl
  have h' : jsNumber fromS > jsNumber "" := by rw [h0]; exact h
  simp only [defaultFilterClick]
  rw [if_pos h']

/-- Witness for C10 with a supplied 4-digit `from` and empty `to`. -/
theorem C10_empty_to_coerces_to_zero_witness :
    defaultFilterClick 2025 [] "1999" "" true
        = FilterResult.error "From year must be less than to year" :=
  C10_empty_to_coerces_to_zero.2 2025 [] "1999" true (by decide)

/-! ### Selection tracking (`selectedPubIds`, src lines 582-595 and
643-650) -/

/-- `selectedPubIds.splice(selectedPubIds.indexOf(pubid), 1)` guarded by
`indexOf(pubid) !== -1` (src 587-590): remove the first occurrence, no
change when the id is absent. -/
def removePubId (pubid : Nat) : List Nat → List Nat
  | [] => []
  | x :: xs => if x = pubid then xs else x :: removePubId pubid xs

/-- The `.pubSelected` change handler (src 582-595): `checkedNow` is the
checkbox state after the flip; `push` the id on check, remove its first
occurrence on uncheck. -/
def pubSelectedChange (checkedNow : Bool) (pubid : Nat)
    (selectedPubIds : List Nat) : List Nat :=
  if checkedNow then selectedPubIds ++ [pubid] else removePubId pubid selectedPubIds

/-- A user toggle of one result checkbox: the checkbox flips and the
change handler runs with the new state. -/
def toggle (pubid : Nat) : Bool × List Nat → Bool × List Nat
  | (c, selectedPubIds) => (!c, pubSelectedChange (!c) pubid selectedPubIds)

lemma removePubId_append_self {pubid : Nat} {l : List Nat} (h : pubid ∉ l) :
    removePubId pubid (l ++ [pubid]) = l := by
  induction l with
  | nil => simp [removePubId]
  | cons x xs ih =>
    simp only [List.mem_cons, not_or] at h
    have hx : x ≠ pubid := fun hx => h.1 hx.symm
    simp [removePubId, hx, ih h.2]

lemma mem_removePubId_of_ne {x pubid : Nat} (hx : x ≠ pubid) (l : List Nat) :
    x ∈ removePubId pubid l ↔ x ∈ l := by
  induction l with
  | nil => simp [removePubId]
  | cons a as ih =>
    by_cases ha : a = pubid
    · simp [removePubId, ha, hx, ih]
    · simp [removePubId, ha, ih]

/-- C8: toggling a checkbox twice restores the checkbox and the selection
set, for every id and state in which the checkbox agrees with membership
(the claim's reading of `toggle`: add if absent, remove if present). -/
theorem C8_toggle_involution :
    ∀ (pubid : Nat) (c : Bool) (l : List Nat), (c = true ↔ pubid ∈ l) →
      (toggle pubid (toggle pubid (c, l))).1 = c ∧
      (∀ x : Nat, x ∈ (toggle pubid (toggle pubid (c, l))).2 ↔ x ∈ l) := by
  intro pubid c l hsync
  cases c with
  | false =>
    have hmem : pubid ∉ l := fun h => Bool.false_ne_true (hsync.mpr h)
    refine ⟨rfl, fun x => ?_⟩
    have h2 : (toggle pubid (toggle pubid (false, l))).2
        = removePubId pubid (l ++ [pubid]) := rfl
    rw [h2, removePubId_append_self hmem]
  | true =>
    have hmem : pubid ∈ l := hsync.mp rfl
    refine ⟨rfl, fun x => ?_⟩
    have h2 : (toggle pubid (toggle pubid (true, l))).2
        = removePubId pubid l ++ [pubid] := rfl
    rw [h2]
    by_cases hx : x = pubid
    · subst hx
      simp [List.mem_append, hmem]
    · simp [List.mem_append, hx, mem_removePubId_of_ne hx l]

/-- Witness for C8 on a concrete checked id in a two-element selection. -/
theorem C8_toggle_involution_witness :
    (toggle 7 (toggle 7 (true, [7, 3]))).1 = true ∧
    (7 ∈ (toggle 7 (toggle 7 (true, [7, 3]))).2 ↔ 7 ∈ [7, 3]) ∧
    (3 ∈ (toggle 7 (toggle 7 (true, [7, 3]))).2 ↔ 3 ∈ [7, 3]) := by
  have h := C8_toggle_involution 7 true [7, 3] (by decide)
  exact ⟨h.1, h.2 7, h.2 3⟩

/-- The page state `setSelectedPubCheckboxes` works on: the tracked
selection and the visible `.pubSelected` checkboxes as
`(data-pubid, checked)` pairs. -/
structure PageState where
  selectedPubIds : List Nat
  visible : List (Nat × Bool)
deriving DecidableEq

/-- `setSelectedPubCheckboxes` (src 643-650): for each visible
`.pubSelected` checkbox whose `data-pubid` is in `selectedPubIds`, set
`checked`; other checkboxes are left as they are, and `selectedPubIds`
is only read. -/
def setSelectedPubCheckboxes (st : PageState) : PageState :=
  { st with
    visible := st.visible.map
      (fun p => if st.selectedPubIds.contains p.1 then (p.1, true) else p) }

lemma mapFst_setSelected (sel : List Nat) (v : List (Nat × Bool)) :
    (v.map (fun p => if sel.contains p.1 then (p.1, true) else p)).map Prod.fst
      = v.map Prod.fst := by
  have h1 : ∀ q : Nat × Bool,
      (if sel.contains q.1 then (q.1, true) else q).1 = q.1 := by
    intro q
    split <;> rfl
  induction v with
  | nil => rfl
  | cons p ps ih => simp only [List.map_cons, ih, h1]

lemma mem_mapFst_filter {q : Nat × Bool → Bool} {l : List (Nat × Bool)} {i : Nat}
    (h : i ∈ (l.filter q).map Prod.fst) : i ∈ l.map Prod.fst := by
  simp only [List.mem_map] at h ⊢
  obtain ⟨p, hp, rfl⟩ := h
  exact ⟨p, List.mem_of_mem_filter hp, rfl⟩

lemma filter_mapFst_fresh (sel : List Nat) (v : List (Nat × Bool))
    (h : ∀ p ∈ v, p.2 = false) :
    ((v.map (fun p => if sel.contains p.1 then (p.1, true) else p)).filter
        (fun p => p.2)).map Prod.fst
      = (v.map Prod.fst).filter (fun i => sel.contains i) := by
  induction v with
  | nil => rfl
  | cons p ps ih =>
    have hp : p.2 = false := h p (List.mem_cons_self p ps)
    have hrest := ih (fun q hq => h q (List.mem_cons_of_mem _ hq))
    by_cases hc : p.1 ∈ sel
    · simpa [hc, hp] using hrest
    · simpa [hc, hp] using hrest

/-- C9: re-applying the tracked selection after a DOM refresh leaves the
selection set unmutated, never marks an id that is not among the visible
ids, and on a fresh (all-unchecked) result fragment the checked ids are
exactly the visible ids present in the selection set, in order. -/
theorem C9_reapply_subset :
    ∀ st : PageState,
      (setSelectedPubCheckboxes st).selectedPubIds = st.selectedPubIds ∧
      (setSelectedPubCheckboxes st).visible.map Prod.fst = st.visible.map Prod.fst ∧
      (∀ i : Nat, i ∈ ((setSelectedPubCheckboxes st).visible.filter
          (fun p => p.2)).map Prod.fst → i ∈ st.visible.map Prod.fst) ∧
      ((∀ p ∈ st.visible, p.2 = false) →
        ((setSelectedPubCheckboxes st).visible.filter (fun p => p.2)).map Prod.fst
          = (st.visible.map Prod.fst).filter (fun i => st.selectedPubIds.contains i)) := by
  intro st
  have hv : (setSelectedPubCheckboxes st).visible
      = st.visible.map
          (fun p => if st.selectedPubIds.contains p.1 then (p.1, true) else p) := rfl
  refine ⟨rfl, mapFst_setSelected st.selectedPubIds st.visible, fun i hi => ?_,
    filter_mapFst_fresh st.selectedPubIds st.visible⟩
  rw [hv] at hi
  have h := mem_mapFst_filter hi
  rwa [mapFst_setSelected] at h

/-- Witness for C9 on a fresh three-checkbox page with ids 1 and 3
selected. -/
theorem C9_reapply_subset_witness :
    (setSelectedPubCheckboxes ⟨[1, 3], [(1, false), (2, false), (3, false)]⟩).selectedPubIds
        = [1, 3] ∧
    ((setSelectedPubCheckboxes ⟨[1, 3], [(1, false), (2, false), (3, false)]⟩).visible.filter
        (fun p => p.2)).map Prod.fst = [1, 3] := by
  have h := C9_reapply_subset ⟨[1, 3], [(1, false), (2, false), (3, false)]⟩
  refine ⟨h.1, ?_⟩
  rw [h.2.2.2 (by decide)]
  decide

/-! ### Export validation (`createModelForExport`, src lines 732-788, and
the `#submitEmail` / `#submitSave` click handlers, src 450-580) -/

inductive ExportKind where
  | email
  | save
deriving DecidableEq

/-- The `selectedIds` array built by the `switch` in
`createModelForExport` (src 749-762): the ids on the current page for
`allOnPage`, the tracked `selectedPubIds` for `selected`, empty
otherwise (mode `all` is resolved server-side). -/
def exportSelectedIds (selectionOpt : String) (pageIds selectedPubIds : List Nat) :
    List Nat :=
  if selectionOpt = "allOnPage" then pageIds
  else if selectionOpt = "selected" then selectedPubIds
  else []

/-- The ceiling check in `createModelForExport` (src 763-773): when it
holds the function returns `null` and the submit handler aborts before
its ajax call. -/
def exportCeilingRejected (kind : ExportKind) (selectionOpt : String)
    (selectedIds : List Nat) (searchResultCount : Nat) : Prop :=
  match kind with
  | .email => selectedIds.length > 1000 ∨ (selectionOpt = "all" ∧ searchResultCount > 1000)
  | .save => selectedIds.length > 10000 ∨ (selectionOpt = "all" ∧ searchResultCount > 10000)

instance (kind : ExportKind) (selectionOpt : String) (selectedIds : List Nat)
    (searchResultCount : Nat) :
    Decidable (exportCeilingRejected kind selectionOpt selectedIds searchResultCount) := by
  cases kind <;> (unfold exportCeilingRejected; infer_instance)

/-- Whether a `#submitEmail` or `#submitSave` click reaches its ajax
call: `createModelForExport` must not return `null` (the ceiling check),
an email export must additionally pass the address regex — abstracted
here as `emailValid`, src 462-466 — and a `selected`-mode export must
carry at least one id (src 469-472 and 513-516).  Every rejection
happens before the network dispatch. -/
def exportDispatches (kind : ExportKind) (selectionOpt : String)
    (pageIds selectedPubIds : List Nat) (searchResultCount : Nat)
    (emailValid : Bool) : Bool :=
  let selectedIds := exportSelectedIds selectionOpt pageIds selectedPubIds
  if exportCeilingRejected kind selectionOpt selectedIds searchResultCount then false
  else if kind = ExportKind.email ∧ emailValid = false then false
  else if selectionOpt = "selected" ∧ selectedIds.length = 0 then false
  else true

/-- C3: a mode-`all` email export with more than 1000 reported results
and a mode-`all` save export with more than 10000 are rejected before
dispatch; a `selected`-mode export with an empty tracked selection is
rejected for either kind; and a mode-`all` email export reporting 900
results passes the ceiling check. -/
theorem C3_export_validation :
    (∀ (pageIds selectedPubIds : List Nat) (count : Nat) (v : Bool), count > 1000 →
        exportDispatches ExportKind.email "all" pageIds selectedPubIds count v = false) ∧
    (∀ (pageIds selectedPubIds : List Nat) (count : Nat) (v : Bool), count > 10000 →
        exportDispatches ExportKind.save "all" pageIds selectedPubIds count v = false) ∧
    (∀ (kind : ExportKind) (pageIds : List Nat) (count : Nat) (v : Bool),
        exportDispatches kind "selected" pageIds [] count v = false) ∧
    (∀ pageIds selectedPubIds : List Nat,
        ¬ exportCeilingRejected ExportKind.email "all"
          (exportSelectedIds "all" pageIds selectedPubIds) 900) := by
  refine ⟨fun p s c v h => ?_, fun p s c v h => ?_, fun kind p c v => ?_,
    fun p s hcontra => ?_⟩
  · have hcr : exportCeilingRejected ExportKind.email "all"
        (exportSelectedIds "all" p s) c := Or.inr ⟨rfl, h⟩
    simp only [exportDispatches]
    rw [if_pos hcr]
  · have hcr : exportCeilingRejected ExportKind.save "all"
        (exportSelectedIds "all" p s) c := Or.inr ⟨rfl, h⟩
    simp only [exportDispatches]
    rw [if_pos hcr]
  · simp only [exportDispatches]
    have hsel : exportSelectedIds "selected" p [] = [] := rfl
    rw [hsel]
    have hso : ("selected" : String) ≠ "all" := by decide
    have hc : ¬ exportCeilingRejected kind "selected" [] c := by
      cases kind <;> simp [exportCeilingRejected, hso]
    rw [if_neg hc]
    by_cases h2 : kind = ExportKind.email ∧ v = false
    · rw [if_pos h2]
    · rw [if_neg h2]
      simp
  · have hsel : exportSelectedIds "all" p s = [] := rfl
    rw [hsel] at hcontra
    simp only [exportCeilingRejected] at hcontra
    rcases hcontra with h | ⟨-, h⟩
    · exact absurd h (by decide)
    · exact absurd h (by decide)

/-- Witness for C3 matching the spec's examples: a 1500-result email
export in mode `all`, a 20000-result save export in mode `all`, and
`validate("selected", "save", [], 5)` with nothing selected. -/
theorem C3_export_validation_witness :
    exportDispatches ExportKind.email "all" [] [] 1500 true = false ∧
    exportDispatches ExportKind.save "all" [] [] 20000 true = false ∧
    exportDispatches ExportKind.save "selected" [5] [] 5 true = false :=
  ⟨C3_export_validation.1 [] [] 1500 true (by decide),
    C3_export_validation.2.1 [] [] 20000 true (by decide),
    C3_export_validation.2.2.1 ExportKind.save [5] 5 true⟩

end NslslSearch
